import Mathlib

/-!
Verification of the GC9A01 rounded-display simulation model
(`src/chips/gc9a01.c`) against its natural-language specification.

The controller state, the command interpreter (`process_command`), the
pixel pipeline (`process_pixel`), the SPI stream parser
(`gc9a01_spi_done`) and the pin-change handler (`gc9a01_pin_change`)
are shallowly embedded below.  Machine integers are modelled as `Nat`
with explicit reductions modulo 2^8 / 2^16 exactly where the C types
(`uint8_t`, `uint16_t`) truncate; the signed `int` arithmetic of the
circular-mask test is modelled over `Int`.  The framebuffer is a map
from byte offsets to the 32-bit RGBA word stored by `buffer_write`
(every write in the source is 4-byte aligned, so keying one word per
offset is exact).  Transport-only effects (`spi_start`, `spi_stop`,
`pin_read` re-arming) do not touch the controller state or the surface
and are omitted.
-/

/-- SPI mode, driven by the DC pin (LOW = command, HIGH = data). -/
inductive gc9a01_mode_t where
  | command
  | data
deriving DecidableEq

/-- The three monitored control pins of the chip. -/
inductive pin_t where
  | cs
  | dc
  | rst
deriving DecidableEq

/-- The controller state of `gc9a01_state_t`, with the framebuffer
included as a map from byte offset to the stored 32-bit word.
Fields that only belong to the transport (`spi`, pin handles, the
spi buffer itself) are outside the controller state. -/
structure gc9a01_state_t where
  mode : gc9a01_mode_t
  is_receiving_command : Bool
  current_command : Nat
  expected_args : Nat
  received_args : Nat
  command_args : Nat → Nat
  pending_data : Nat
  pending_data_valid : Bool
  col_start : Nat
  col_end : Nat
  row_start : Nat
  row_end : Nat
  current_col : Nat
  current_row : Nat
  ram_write : Bool
  display_on : Bool
  inverted : Bool
  width : Nat
  height : Nat
  framebuffer : Nat → Nat

/-- Expected argument count for each command (`get_expected_arg_count`).
Unrecognized opcodes fall through to the `default` case and get 0. -/
def get_expected_arg_count (command : Nat) : Nat :=
  if command = 0x01 then 0
  else if command = 0x11 then 0
  else if command = 0x29 then 0
  else if command = 0x28 then 0
  else if command = 0x2C then 0
  else if command = 0x20 then 0
  else if command = 0x21 then 0
  else if command = 0x2A then 4
  else if command = 0x2B then 4
  else if command = 0x36 then 1
  else if command = 0x3A then 1
  else 0

/-- RGB565 to 32-bit RGBA conversion (`rgb565_to_rgba`). -/
def rgb565_to_rgba (value : Nat) : Nat :=
  0xff000000 ||| ((value &&& 0x001F) <<< 19) ||| ((value &&& 0x07E0) <<< 5) |||
    ((value &&& 0xF800) >>> 8)

/-- One 4-byte-aligned `buffer_write` into the framebuffer. -/
def buffer_write (fb : Nat → Nat) (offset : Nat) (color : Nat) : Nat → Nat :=
  fun o => if o = offset then color else fb o

/-- The double loop that fills the whole `w`-by-`h` framebuffer with
opaque black, used by the SWRESET opcode and the RST falling edge. -/
def fill_black (w h : Nat) (fb : Nat → Nat) : Nat → Nat :=
  (List.range h).foldl
    (fun f y =>
      (List.range w).foldl (fun g x => buffer_write g ((y * w + x) * 4) 0xff000000) f)
    fb

/-- The command interpreter `process_command`.  `args` is the argument
array (read only at indices below `len`) and `len` the argument count. -/
def process_command (state : gc9a01_state_t) (command : Nat) (args : Nat → Nat)
    (len : Nat) : gc9a01_state_t :=
  if command = 0x01 then
    { state with
      framebuffer := fill_black state.width state.height state.framebuffer,
      display_on := false, inverted := false, ram_write := false,
      col_start := 0, col_end := state.width - 1,
      row_start := 0, row_end := state.height - 1,
      current_col := 0, current_row := 0 }
  else if command = 0x11 then state
  else if command = 0x29 then { state with display_on := true }
  else if command = 0x28 then { state with display_on := false }
  else if command = 0x2A then
    if len = 4 then
      { state with
        col_start := (args 0 <<< 8) ||| args 1,
        col_end := (args 2 <<< 8) ||| args 3,
        current_col := (args 0 <<< 8) ||| args 1 }
    else state
  else if command = 0x2B then
    if len = 4 then
      { state with
        row_start := (args 0 <<< 8) ||| args 1,
        row_end := (args 2 <<< 8) ||| args 3,
        current_row := (args 0 <<< 8) ||| args 1 }
    else state
  else if command = 0x2C then { state with ram_write := true, pending_data_valid := false }
  else if command = 0x36 then state
  else if command = 0x3A then state
  else if command = 0x20 then { state with inverted := false }
  else if command = 0x21 then { state with inverted := true }
  else state

/-- The channel inversion block inside `process_pixel` (the three
255 - channel replacements, alpha re-fixed to opaque). -/
def invert_color (color : Nat) : Nat :=
  let r := 255 - ((color >>> 16) &&& 0xFF)
  let g := 255 - ((color >>> 8) &&& 0xFF)
  let b := 255 - (color &&& 0xFF)
  0xff000000 ||| (r <<< 16) ||| (g <<< 8) ||| b

/-- The pixel pipeline `process_pixel`: color conversion, optional
inversion, window bound check, circular mask, surface write, cursor
advance.  `current_col` and `current_row` are `uint16_t` in the
source, hence the mod-65536 on the increments. -/
def process_pixel (state : gc9a01_state_t) (pixel_val : Nat) : gc9a01_state_t :=
  let color0 := rgb565_to_rgba pixel_val
  let color1 := if state.inverted then invert_color color0 else color0
  if state.current_col < state.col_start ∨ state.current_col > state.col_end ∨
      state.current_row < state.row_start ∨ state.current_row > state.row_end then
    state
  else
    let center : Int := (state.width / 2 : Nat)
    let dx : Int := (state.current_col : Int) - center
    let dy : Int := (state.current_row : Int) - center
    let color2 := if dx * dx + dy * dy > center * center then 0xff000000 else color1
    let offset := (state.current_row * state.width + state.current_col) * 4
    let fb := buffer_write state.framebuffer offset color2
    let col1 := (state.current_col + 1) % 65536
    if col1 > state.col_end then
      let row1 := (state.current_row + 1) % 65536
      if row1 > state.row_end then
        { state with framebuffer := fb,
                     current_col := state.col_start, current_row := state.row_start }
      else
        { state with framebuffer := fb,
                     current_col := state.col_start, current_row := row1 }
    else
      { state with framebuffer := fb, current_col := col1 }

/-- One iteration of the byte loop of `gc9a01_spi_done`.  Incoming
bytes are `uint8_t`, hence the mod-256 at entry; `received_args` is
`uint8_t`, hence the mod-256 on its increment.  In the immediate
(zero-argument) branch the C code passes `NULL` for the unread
argument array; the embedding passes the current array, which is
likewise never read at length 0. -/
def gc9a01_spi_byte (state : gc9a01_state_t) (b0 : Nat) : gc9a01_state_t :=
  let b := b0 % 256
  if state.mode = .command then
    if state.is_receiving_command = false then
      let st := { state with
                  current_command := b, is_receiving_command := true,
                  received_args := 0, expected_args := get_expected_arg_count b }
      if st.expected_args = 0 then
        { process_command st st.current_command st.command_args 0 with
          is_receiving_command := false }
      else st
    else
      let st := { state with
                  command_args := fun i => if i = state.received_args then b
                                           else state.command_args i,
                  received_args := (state.received_args + 1) % 256 }
      if st.expected_args ≤ st.received_args then
        { process_command st st.current_command st.command_args st.expected_args with
          is_receiving_command := false }
      else st
  else
    if state.ram_write then
      if state.pending_data_valid then
        process_pixel { state with pending_data_valid := false }
          ((state.pending_data <<< 8) ||| b)
      else
        { state with pending_data := b, pending_data_valid := true }
    else state

/-- The SPI delivery callback `gc9a01_spi_done` on one chunk: the byte
loop is a left fold of `gc9a01_spi_byte`; a zero-length chunk returns
early with the state untouched, which coincides with the fold over the
empty list.  The trailing transport re-arm does not touch the
controller state. -/
def gc9a01_spi_done (state : gc9a01_state_t) (buffer : List Nat) : gc9a01_state_t :=
  buffer.foldl gc9a01_spi_byte state

/-- The pin-change callback `gc9a01_pin_change`; `value = 0` is LOW.
The three pins are distinct, so exactly one of the three guarded
blocks of the source runs per call. -/
def gc9a01_pin_change (state : gc9a01_state_t) (pin : pin_t) (value : Nat) :
    gc9a01_state_t :=
  match pin with
  | .cs =>
    if value = 0 then
      { state with is_receiving_command := false, pending_data_valid := false }
    else
      { state with ram_write := false, is_receiving_command := false,
                   pending_data_valid := false }
  | .dc =>
    if value = 0 then { state with mode := .command }
    else { state with mode := .data }
  | .rst =>
    if value = 0 then
      { state with
        framebuffer := fill_black state.width state.height state.framebuffer,
        display_on := false, inverted := false, ram_write := false,
        col_start := 0, col_end := state.width - 1,
        row_start := 0, row_end := state.height - 1,
        current_col := 0, current_row := 0 }
    else state

/-- Erase the transient command-assembly registers. -/
def scrub (s : gc9a01_state_t) : gc9a01_state_t :=
  { s with current_command := 0, expected_args := 0, received_args := 0 }

/-- A convenient fully-concrete controller state: command mode, idle
parser, full-surface window, cursor at the origin, all flags off,
240-by-240 surface, framebuffer reading 0 everywhere. -/
def base_state : gc9a01_state_t :=
  { mode := .command, is_receiving_command := false, current_command := 0,
    expected_args := 0, received_args := 0, command_args := fun _ => 0,
    pending_data := 0, pending_data_valid := false,
    col_start := 0, col_end := 239, row_start := 0, row_end := 239,
    current_col := 0, current_row := 0,
    ram_write := false, display_on := false, inverted := false,
    width := 240, height := 240, framebuffer := fun _ => 0 }

/-- State whose address window pokes past the 240-by-240 surface:
columns 240..300 on row 239, cursor at (240,239), reachable via CASET
240..300 and RASET 239..239 followed by RAMWR. -/
def c1_state : gc9a01_state_t :=
  { base_state with col_start := 240, col_end := 300, row_start := 239, row_end := 239,
                    current_col := 240, current_row := 239, ram_write := true }

/-- State with the one-cell window \[65535,65535\] times \[0,0\] and the
cursor on it, reachable via CASET FFFF..FFFF and RASET 0..0. -/
def c6_escape_state : gc9a01_state_t :=
  { base_state with col_start := 65535, col_end := 65535, row_start := 0, row_end := 0,
                    current_col := 65535, current_row := 0, ram_write := true }

/-- State with window columns 2..4, rows 1..2 (area 6) and the cursor at
the window origin. -/
def c6_wrap_state : gc9a01_state_t :=
  { base_state with col_start := 2, col_end := 4, row_start := 1, row_end := 2,
                    current_col := 2, current_row := 1, ram_write := true }

/-- State in the middle of a CASET: opcode 0x2A received along with its
first two argument bytes 0x00 0x10. -/
def c7_state : gc9a01_state_t :=
  { base_state with is_receiving_command := true, current_command := 0x2A,
                    expected_args := 4, received_args := 2,
                    command_args := fun i => if i = 0 then 0 else if i = 1 then 16 else 0 }

/-- State holding the high byte 0xAB of a half-received pixel sample
during an active memory write. -/
def c8_state : gc9a01_state_t :=
  { base_state with mode := .data, ram_write := true,
                    pending_data := 0xAB, pending_data_valid := true }

/-- Data-mode state with a stale pending byte but memory write off. -/
def c8_idle_state : gc9a01_state_t :=
  { base_state with mode := .data, pending_data := 0xAB, pending_data_valid := true }

/-- State two argument bytes into a CASET with memory write active. -/
def c10_state : gc9a01_state_t :=
  { base_state with is_receiving_command := true, current_command := 0x2A,
                    expected_args := 4, received_args := 2, ram_write := true }

/-! Helper lemmas about the framebuffer fill loop. -/

lemma buffer_write_ne (f : Nat → Nat) (t c o : Nat) (h : o ≠ t) :
    buffer_write f t c o = f o := by
  simp [buffer_write, h]

lemma buffer_write_eq (f : Nat → Nat) (t c : Nat) : buffer_write f t c t = c := by
  simp [buffer_write]

lemma row_write_preserve (L : List Nat) (a w o c : Nat) (f : Nat → Nat)
    (h : ∀ x ∈ L, o ≠ (a * w + x) * 4) :
    (L.foldl (fun g x => buffer_write g ((a * w + x) * 4) c) f) o = f o := by
  induction L generalizing f with
  | nil => rfl
  | cons t ts ih =>
    rw [List.foldl_cons, ih _ (fun x hx => h x (List.mem_cons_of_mem t hx))]
    exact buffer_write_ne _ _ _ _ (h t (List.mem_cons_self t ts))

lemma row_write_of_mem (L : List Nat) (a w o c : Nat) (f : Nat → Nat)
    (h : ∃ x ∈ L, o = (a * w + x) * 4) :
    (L.foldl (fun g x => buffer_write g ((a * w + x) * 4) c) f) o = c := by
  induction L generalizing f with
  | nil => simp at h
  | cons t ts ih =>
    rw [List.foldl_cons]
    by_cases h2 : ∃ x ∈ ts, o = (a * w + x) * 4
    · exact ih _ h2
    · have hot : o = (a * w + t) * 4 := by
        obtain ⟨x, hx, ho⟩ := h
        rcases List.mem_cons.mp hx with rfl | hxts
        · exact ho
        · exact absurd ⟨x, hxts, ho⟩ h2
      have hpre : ∀ x ∈ ts, o ≠ (a * w + x) * 4 := fun x hx hco => h2 ⟨x, hx, hco⟩
      rw [row_write_preserve ts a w o c _ hpre, hot]
      exact buffer_write_eq _ _ _

lemma fill_outer_preserve (L : List Nat) (w o : Nat) (f : Nat → Nat)
    (h : ∀ y ∈ L, ∀ x ∈ List.range w, o ≠ (y * w + x) * 4) :
    (L.foldl (fun f y => (List.range w).foldl
      (fun g x => buffer_write g ((y * w + x) * 4) 0xff000000) f) f) o = f o := by
  induction L generalizing f with
  | nil => rfl
  | cons t ts ih =>
    rw [List.foldl_cons, ih _ (fun y hy => h y (List.mem_cons_of_mem t hy))]
    exact row_write_preserve _ _ _ _ _ _ (h t (List.mem_cons_self t ts))

lemma fill_outer_of_mem (L : List Nat) (w o : Nat) (f : Nat → Nat)
    (h : ∃ y ∈ L, ∃ x ∈ List.range w, o = (y * w + x) * 4) :
    (L.foldl (fun f y => (List.range w).foldl
      (fun g x => buffer_write g ((y * w + x) * 4) 0xff000000) f) f) o = 0xff000000 := by
  induction L generalizing f with
  | nil => simp at h
  | cons t ts ih =>
    rw [List.foldl_cons]
    by_cases h2 : ∃ y ∈ ts, ∃ x ∈ List.range w, o = (y * w + x) * 4
    · exact ih _ h2
    · have hrow : ∃ x ∈ List.range w, o = (t * w + x) * 4 := by
        obtain ⟨y, hy, hx⟩ := h
        rcases List.mem_cons.mp hy with rfl | hyts
        · exact hx
        · exact absurd ⟨y, hyts, hx⟩ h2
      have hpre : ∀ y ∈ ts, ∀ x ∈ List.range w, o ≠ (y * w + x) * 4 :=
        fun y hy x hx hco => h2 ⟨y, hy, x, hx, hco⟩
      rw [fill_outer_preserve ts w o _ hpre]
      exact row_write_of_mem _ _ _ _ _ _ hrow

lemma fill_black_pixel (w h : Nat) (fb : Nat → Nat) (x y : Nat) (hx : x < w) (hy : y < h) :
    fill_black w h fb ((y * w + x) * 4) = 0xff000000 := by
  unfold fill_black
  exact fill_outer_of_mem _ _ _ _
    ⟨y, List.mem_range.mpr hy, x, List.mem_range.mpr hx, rfl⟩

/-! Helper lemmas about the pixel pipeline. -/

lemma process_pixel_stored (s : gc9a01_state_t) (v : Nat)
    (hc1 : s.col_start ≤ s.current_col) (hc2 : s.current_col ≤ s.col_end)
    (hr1 : s.row_start ≤ s.current_row) (hr2 : s.current_row ≤ s.row_end) :
    (process_pixel s v).framebuffer ((s.current_row * s.width + s.current_col) * 4) =
      if ((s.current_col : Int) - ((s.width / 2 : Nat) : Int)) *
           ((s.current_col : Int) - ((s.width / 2 : Nat) : Int)) +
         ((s.current_row : Int) - ((s.width / 2 : Nat) : Int)) *
           ((s.current_row : Int) - ((s.width / 2 : Nat) : Int)) >
         ((s.width / 2 : Nat) : Int) * ((s.width / 2 : Nat) : Int)
      then 0xff000000
      else if s.inverted then invert_color (rgb565_to_rgba v) else rgb565_to_rgba v := by
  unfold process_pixel
  rw [if_neg (by push_neg; exact ⟨hc1, hc2, hr1, hr2⟩)]
  dsimp only
  split <;> split <;> simp [buffer_write]

lemma process_pixel_window (s : gc9a01_state_t) (v : Nat) :
    (process_pixel s v).col_start = s.col_start ∧
    (process_pixel s v).col_end = s.col_end ∧
    (process_pixel s v).row_start = s.row_start ∧
    (process_pixel s v).row_end = s.row_end := by
  unfold process_pixel
  dsimp only
  split
  · exact ⟨rfl, rfl, rfl, rfl⟩
  · split
    · split
      · exact ⟨rfl, rfl, rfl, rfl⟩
      · exact ⟨rfl, rfl, rfl, rfl⟩
    · exact ⟨rfl, rfl, rfl, rfl⟩

lemma process_pixel_cursor_step (s : gc9a01_state_t) (v : Nat)
    (hc65 : s.col_end < 65535) (hr65 : s.row_end < 65535)
    (h1 : s.col_start ≤ s.current_col) (h2 : s.current_col ≤ s.col_end)
    (h3 : s.row_start ≤ s.current_row) (h4 : s.current_row ≤ s.row_end) :
    (s.current_col < s.col_end ∧
       (process_pixel s v).current_col = s.current_col + 1 ∧
       (process_pixel s v).current_row = s.current_row) ∨
    (s.current_col = s.col_end ∧ s.current_row < s.row_end ∧
       (process_pixel s v).current_col = s.col_start ∧
       (process_pixel s v).current_row = s.current_row + 1) ∨
    (s.current_col = s.col_end ∧ s.current_row = s.row_end ∧
       (process_pixel s v).current_col = s.col_start ∧
       (process_pixel s v).current_row = s.row_start) := by
  unfold process_pixel
  rw [if_neg (by push_neg; exact ⟨h1, h2, h3, h4⟩)]
  dsimp only
  have e1 : (s.current_col + 1) % 65536 = s.current_col + 1 := Nat.mod_eq_of_lt (by omega)
  have e2 : (s.current_row + 1) % 65536 = s.current_row + 1 := Nat.mod_eq_of_lt (by omega)
  rw [e1, e2]
  by_cases hlt : s.current_col < s.col_end
  · rw [if_neg (by omega)]
    exact Or.inl ⟨hlt, rfl, rfl⟩
  · have hceq : s.current_col = s.col_end := by omega
    rw [if_pos (by omega)]
    by_cases hrlt : s.current_row < s.row_end
    · rw [if_neg (by omega)]
      exact Or.inr (Or.inl ⟨hceq, hrlt, rfl, rfl⟩)
    · have hreq : s.current_row = s.row_end := by omega
      rw [if_pos (by omega)]
      exact Or.inr (Or.inr ⟨hceq, hreq, rfl, rfl⟩)

lemma run_cursor (c0 c1 r0 r1 w hgt : Nat) (hw : w = c1 - c0 + 1) (hh : hgt = r1 - r0 + 1)
    (hc : c0 ≤ c1) (hc65 : c1 < 65535) (hr : r0 ≤ r1) (hr65 : r1 < 65535) :
    ∀ (l : List Nat) (s : gc9a01_state_t) (i : Nat),
      s.col_start = c0 → s.col_end = c1 → s.row_start = r0 → s.row_end = r1 →
      i < w * hgt →
      s.current_col = c0 + i % w → s.current_row = r0 + i / w →
      ((l.foldl process_pixel s).col_start = c0 ∧
       (l.foldl process_pixel s).col_end = c1 ∧
       (l.foldl process_pixel s).row_start = r0 ∧
       (l.foldl process_pixel s).row_end = r1 ∧
       (l.foldl process_pixel s).current_col = c0 + ((i + l.length) % (w * hgt)) % w ∧
       (l.foldl process_pixel s).current_row = r0 + ((i + l.length) % (w * hgt)) / w) := by
  intro l
  induction l with
  | nil =>
    intro s i h1 h2 h3 h4 hi hcol hrow
    simp only [List.foldl_nil, List.length_nil, Nat.add_zero]
    rw [Nat.mod_eq_of_lt hi]
    exact ⟨h1, h2, h3, h4, hcol, hrow⟩
  | cons v l ih =>
    intro s i h1 h2 h3 h4 hi hcol hrow
    have hw0 : 0 < w := by omega
    have hh0 : 0 < hgt := by omega
    have hN0 : 0 < w * hgt := Nat.mul_pos hw0 hh0
    have hmod : i % w < w := Nat.mod_lt _ hw0
    have hdiv : i / w < hgt := by
      rw [Nat.div_lt_iff_lt_mul hw0]
      calc i < w * hgt := hi
        _ = hgt * w := Nat.mul_comm _ _
    have hiq : w * (i / w) + i % w = i := Nat.div_add_mod i w
    have hdiv0 : 0 ≤ i / w := Nat.zero_le _
    have hmod0 : 0 ≤ i % w := Nat.zero_le _
    -- bounds of the current cursor
    have hin1 : s.col_start ≤ s.current_col := by rw [h1, hcol]; omega
    have hin2 : s.current_col ≤ s.col_end := by rw [h2, hcol]; omega
    have hin3 : s.row_start ≤ s.current_row := by rw [h3, hrow]; omega
    have hin4 : s.current_row ≤ s.row_end := by rw [h4, hrow]; omega
    have hstep := process_pixel_cursor_step s v (by rw [h2]; exact hc65)
      (by rw [h4]; exact hr65) hin1 hin2 hin3 hin4
    have hwin := process_pixel_window s v
    -- the next flat index
    have key : (process_pixel s v).current_col = c0 + ((i + 1) % (w * hgt)) % w ∧
        (process_pixel s v).current_row = r0 + ((i + 1) % (w * hgt)) / w := by
      rcases hstep with ⟨hlt, hc', hr'⟩ | ⟨hceq, hrlt, hc', hr'⟩ | ⟨hceq, hreq, hc', hr'⟩
      · -- column advances: i % w + 1 < w
        have hjlt : i % w + 1 < w := by
          rw [hcol, h2] at hlt
          omega
        have hi1 : i + 1 < w * hgt := by
          have h5 : w * (i / w) ≤ w * (hgt - 1) := Nat.mul_le_mul_left _ (by omega)
          have h6 : w * (hgt - 1) + w = w * hgt := by
            have h7 : hgt - 1 + 1 = hgt := by omega
            calc w * (hgt - 1) + w = w * (hgt - 1 + 1) := by ring
              _ = w * hgt := by rw [h7]
          omega
        have hm1 : (i + 1) % (w * hgt) = i + 1 := Nat.mod_eq_of_lt hi1
        have hi1e : i + 1 = w * (i / w) + (i % w + 1) := by omega
        have hm2 : (i + 1) % w = i % w + 1 := by
          rw [hi1e, Nat.mul_add_mod, Nat.mod_eq_of_lt hjlt]
        have hm3 : (i + 1) / w = i / w := by
          rw [hi1e, Nat.mul_add_div hw0, Nat.div_eq_of_lt hjlt, Nat.add_zero]
        rw [hm1, hm2, hm3, hc', hr', hcol, hrow]
        omega
      · -- column wraps, row advances: i % w = w - 1, i / w + 1 < hgt
        have hjeq : i % w = w - 1 := by
          rw [hcol, h2] at hceq
          omega
        have hqlt : i / w + 1 < hgt := by
          rw [hrow, h4] at hrlt
          omega
        have hi1e : i + 1 = w * (i / w + 1) := by
          have : w * (i / w + 1) = w * (i / w) + w := by ring
          omega
        have hi1 : i + 1 < w * hgt := by
          rw [hi1e]
          have h5 : w * (i / w + 1) ≤ w * (hgt - 1) := Nat.mul_le_mul_left _ (by omega)
          have h6 : w * (hgt - 1) + w = w * hgt := by
            have h7 : hgt - 1 + 1 = hgt := by omega
            calc w * (hgt - 1) + w = w * (hgt - 1 + 1) := by ring
              _ = w * hgt := by rw [h7]
          omega
        have hm1 : (i + 1) % (w * hgt) = i + 1 := Nat.mod_eq_of_lt hi1
        have hm2 : (i + 1) % w = 0 := by rw [hi1e]; exact Nat.mul_mod_right _ _
        have hm3 : (i + 1) / w = i / w + 1 := by
          rw [hi1e]
          exact Nat.mul_div_cancel_left _ hw0
        rw [hm1, hm2, hm3, hc', hr', h1, hrow]
        omega
      · -- both wrap: i = w * hgt - 1
        have hjeq : i % w = w - 1 := by
          rw [hcol, h2] at hceq
          omega
        have hqeq : i / w = hgt - 1 := by
          rw [hrow, h4] at hreq
          omega
        have hi1e : i + 1 = w * hgt := by
          rw [hjeq, hqeq] at hiq
          have h6 : w * (hgt - 1) + w = w * hgt := by
            have h7 : hgt - 1 + 1 = hgt := by omega
            calc w * (hgt - 1) + w = w * (hgt - 1 + 1) := by ring
              _ = w * hgt := by rw [h7]
          omega
        have hm1 : (i + 1) % (w * hgt) = 0 := by rw [hi1e]; exact Nat.mod_self _
        rw [hm1, hc', hr', h1, h3]
        simp [Nat.zero_div, Nat.zero_mod]
    -- apply the induction hypothesis to the stepped state
    have happ := ih (process_pixel s v) ((i + 1) % (w * hgt))
      (hwin.1.trans h1) (hwin.2.1.trans h2) (hwin.2.2.1.trans h3) (hwin.2.2.2.trans h4)
      (Nat.mod_lt _ hN0) key.1 key.2
    simp only [List.foldl_cons, List.length_cons] at *
    rw [Nat.mod_add_mod] at happ
    have harith : i + 1 + l.length = i + (l.length + 1) := by omega
    rw [harith] at happ
    exact happ

/-! Helper lemmas about the parser and the assembly registers. -/

@[simp] lemma scrub_mode (s : gc9a01_state_t) : (scrub s).mode = s.mode := rfl
@[simp] lemma scrub_is_receiving_command (s : gc9a01_state_t) : (scrub s).is_receiving_command = s.is_receiving_command := rfl
@[simp] lemma scrub_command_args (s : gc9a01_state_t) : (scrub s).command_args = s.command_args := rfl
@[simp] lemma scrub_pending_data (s : gc9a01_state_t) : (scrub s).pending_data = s.pending_data := rfl
@[simp] lemma scrub_pending_data_valid (s : gc9a01_state_t) : (scrub s).pending_data_valid = s.pending_data_valid := rfl
@[simp] lemma scrub_col_start (s : gc9a01_state_t) : (scrub s).col_start = s.col_start := rfl
@[simp] lemma scrub_col_end (s : gc9a01_state_t) : (scrub s).col_end = s.col_end := rfl
@[simp] lemma scrub_row_start (s : gc9a01_state_t) : (scrub s).row_start = s.row_start := rfl
@[simp] lemma scrub_row_end (s : gc9a01_state_t) : (scrub s).row_end = s.row_end := rfl
@[simp] lemma scrub_current_col (s : gc9a01_state_t) : (scrub s).current_col = s.current_col := rfl
@[simp] lemma scrub_current_row (s : gc9a01_state_t) : (scrub s).current_row = s.current_row := rfl
@[simp] lemma scrub_ram_write (s : gc9a01_state_t) : (scrub s).ram_write = s.ram_write := rfl
@[simp] lemma scrub_display_on (s : gc9a01_state_t) : (scrub s).display_on = s.display_on := rfl
@[simp] lemma scrub_inverted (s : gc9a01_state_t) : (scrub s).inverted = s.inverted := rfl
@[simp] lemma scrub_width (s : gc9a01_state_t) : (scrub s).width = s.width := rfl
@[simp] lemma scrub_height (s : gc9a01_state_t) : (scrub s).height = s.height := rfl
@[simp] lemma scrub_framebuffer (s : gc9a01_state_t) : (scrub s).framebuffer = s.framebuffer := rfl
@[simp] lemma scrub_current_command (s : gc9a01_state_t) : (scrub s).current_command = 0 := rfl
@[simp] lemma scrub_expected_args (s : gc9a01_state_t) : (scrub s).expected_args = 0 := rfl
@[simp] lemma scrub_received_args (s : gc9a01_state_t) : (scrub s).received_args = 0 := rfl

lemma state_eq_of_scrub (s t : gc9a01_state_t) (h : scrub s = scrub t)
    (h1 : s.current_command = t.current_command) (h2 : s.expected_args = t.expected_args)
    (h3 : s.received_args = t.received_args) : s = t := by
  cases s; cases t
  simp only [scrub, gc9a01_state_t.mk.injEq] at h ⊢
  simp_all

lemma scrub_process_command (s : gc9a01_state_t) (c : Nat) (a : Nat → Nat) (l : Nat) :
    scrub (process_command s c a l) = process_command (scrub s) c a l := by
  unfold process_command
  by_cases h1 : c = 0x01
  · subst h1; rfl
  rw [if_neg h1, if_neg h1]
  by_cases h2 : c = 0x11
  · subst h2; rfl
  rw [if_neg h2, if_neg h2]
  by_cases h3 : c = 0x29
  · subst h3; rfl
  rw [if_neg h3, if_neg h3]
  by_cases h4 : c = 0x28
  · subst h4; rfl
  rw [if_neg h4, if_neg h4]
  by_cases h5 : c = 0x2A
  · subst h5
    by_cases hl : l = 4
    · subst hl; rfl
    · rw [if_pos rfl, if_pos rfl, if_neg hl, if_neg hl]
  rw [if_neg h5, if_neg h5]
  by_cases h6 : c = 0x2B
  · subst h6
    by_cases hl : l = 4
    · subst hl; rfl
    · rw [if_pos rfl, if_pos rfl, if_neg hl, if_neg hl]
  rw [if_neg h6, if_neg h6]
  by_cases h7 : c = 0x2C
  · subst h7; rfl
  rw [if_neg h7, if_neg h7]
  by_cases h8 : c = 0x36
  · subst h8; rfl
  rw [if_neg h8, if_neg h8]
  by_cases h9 : c = 0x3A
  · subst h9; rfl
  rw [if_neg h9, if_neg h9]
  by_cases h10 : c = 0x20
  · subst h10; rfl
  rw [if_neg h10, if_neg h10]
  by_cases h11 : c = 0x21
  · subst h11; rfl
  rw [if_neg h11, if_neg h11]

lemma scrub_process_pixel (s : gc9a01_state_t) (v : Nat) :
    scrub (process_pixel s v) = process_pixel (scrub s) v := by
  unfold process_pixel
  dsimp only
  simp only [scrub_mode, scrub_is_receiving_command, scrub_command_args, scrub_pending_data,
    scrub_pending_data_valid, scrub_col_start, scrub_col_end, scrub_row_start, scrub_row_end,
    scrub_current_col, scrub_current_row, scrub_ram_write, scrub_display_on, scrub_inverted,
    scrub_width, scrub_height, scrub_framebuffer, scrub_current_command, scrub_expected_args,
    scrub_received_args]
  by_cases hg : s.current_col < s.col_start ∨ s.current_col > s.col_end ∨
      s.current_row < s.row_start ∨ s.current_row > s.row_end
  · rw [if_pos hg, if_pos hg]
  · rw [if_neg hg, if_neg hg]
    by_cases h1 : (s.current_col + 1) % 65536 > s.col_end
    · rw [if_pos h1, if_pos h1]
      by_cases h2 : (s.current_row + 1) % 65536 > s.row_end
      · rw [if_pos h2, if_pos h2]; rfl
      · rw [if_neg h2, if_neg h2]; rfl
    · rw [if_neg h1, if_neg h1]; rfl





lemma process_pixel_scratch (s : gc9a01_state_t) (v : Nat) :
    (process_pixel s v).is_receiving_command = s.is_receiving_command ∧
    (process_pixel s v).current_command = s.current_command ∧
    (process_pixel s v).expected_args = s.expected_args ∧
    (process_pixel s v).received_args = s.received_args := by
  unfold process_pixel
  dsimp only
  split
  · exact ⟨rfl, rfl, rfl, rfl⟩
  · split
    · split
      · exact ⟨rfl, rfl, rfl, rfl⟩
      · exact ⟨rfl, rfl, rfl, rfl⟩
    · exact ⟨rfl, rfl, rfl, rfl⟩

lemma spi_byte_cmd_idle (s : gc9a01_state_t) (b : Nat) (h1 : s.mode = .command)
    (h2 : s.is_receiving_command = false)
    (h3 : get_expected_arg_count (b % 256) = 0) :
    gc9a01_spi_byte s b =
      { (process_command
            { s with
              current_command := b % 256, is_receiving_command := true,
              received_args := 0, expected_args := get_expected_arg_count (b % 256) }
            (b % 256) s.command_args 0) with
          is_receiving_command := false } := by
  unfold gc9a01_spi_byte
  dsimp only
  rw [if_pos h1, if_pos h2, if_pos h3]

lemma spi_byte_cmd_idle_acc (s : gc9a01_state_t) (b : Nat) (h1 : s.mode = .command)
    (h2 : s.is_receiving_command = false)
    (h3 : ¬ get_expected_arg_count (b % 256) = 0) :
    gc9a01_spi_byte s b =
      { s with
        current_command := b % 256, is_receiving_command := true,
        received_args := 0, expected_args := get_expected_arg_count (b % 256) } := by
  unfold gc9a01_spi_byte
  dsimp only
  rw [if_pos h1, if_pos h2, if_neg h3]

lemma spi_byte_data_pair (s : gc9a01_state_t) (b : Nat) (h1 : s.mode = .data)
    (h2 : s.ram_write = true) (h3 : s.pending_data_valid = true) :
    gc9a01_spi_byte s b =
      process_pixel { s with pending_data_valid := false }
        ((s.pending_data <<< 8) ||| (b % 256)) := by
  have h1n : ¬ s.mode = .command := by rw [h1]; decide
  unfold gc9a01_spi_byte
  dsimp only
  rw [if_neg h1n, if_pos h2, if_pos h3]

lemma spi_byte_data_first (s : gc9a01_state_t) (b : Nat) (h1 : s.mode = .data)
    (h2 : s.ram_write = true) (h3 : s.pending_data_valid = false) :
    gc9a01_spi_byte s b =
      { s with pending_data := b % 256, pending_data_valid := true } := by
  have h1n : ¬ s.mode = .command := by rw [h1]; decide
  have h3n : ¬ s.pending_data_valid = true := by rw [h3]; decide
  unfold gc9a01_spi_byte
  dsimp only
  rw [if_neg h1n, if_pos h2, if_neg h3n]

lemma spi_byte_data_off (s : gc9a01_state_t) (b : Nat) (h1 : s.mode = .data)
    (h2 : s.ram_write = false) :
    gc9a01_spi_byte s b = s := by
  have h1n : ¬ s.mode = .command := by rw [h1]; decide
  have h2n : ¬ s.ram_write = true := by rw [h2]; decide
  unfold gc9a01_spi_byte
  dsimp only
  rw [if_neg h1n, if_neg h2n]

lemma spi_byte_bisim (s t : gc9a01_state_t) (b : Nat) (h : scrub s = scrub t)
    (hsync : s.is_receiving_command = true →
      s.current_command = t.current_command ∧ s.expected_args = t.expected_args ∧
      s.received_args = t.received_args) :
    scrub (gc9a01_spi_byte s b) = scrub (gc9a01_spi_byte t b) ∧
    ((gc9a01_spi_byte s b).is_receiving_command = true →
      (gc9a01_spi_byte s b).current_command = (gc9a01_spi_byte t b).current_command ∧
      (gc9a01_spi_byte s b).expected_args = (gc9a01_spi_byte t b).expected_args ∧
      (gc9a01_spi_byte s b).received_args = (gc9a01_spi_byte t b).received_args) := by
  by_cases hrc : s.is_receiving_command = true
  · have hst : s = t := state_eq_of_scrub s t h (hsync hrc).1 (hsync hrc).2.1 (hsync hrc).2.2
    subst hst
    exact ⟨rfl, fun _ => ⟨rfl, rfl, rfl⟩⟩
  · have hf : s.is_receiving_command = false := by
      cases hx : s.is_receiving_command
      · rfl
      · exact absurd hx hrc
    have hirct : s.is_receiving_command = t.is_receiving_command := by
      have := congrArg gc9a01_state_t.is_receiving_command h
      simpa using this
    have hfl : t.is_receiving_command = false := hirct.symm.trans hf
    have hmode : s.mode = t.mode := by
      have := congrArg gc9a01_state_t.mode h
      simpa using this
    have hargs : s.command_args = t.command_args := by
      have := congrArg gc9a01_state_t.command_args h
      simpa using this
    have hram : s.ram_write = t.ram_write := by
      have := congrArg gc9a01_state_t.ram_write h
      simpa using this
    have hpv : s.pending_data_valid = t.pending_data_valid := by
      have := congrArg gc9a01_state_t.pending_data_valid h
      simpa using this
    have hpd : s.pending_data = t.pending_data := by
      have := congrArg gc9a01_state_t.pending_data h
      simpa using this
    by_cases hcm : s.mode = .command
    · have hcmt : t.mode = .command := hmode.symm.trans hcm
      have hstst : scrub
            { s with
              current_command := b % 256, is_receiving_command := true,
              received_args := 0, expected_args := get_expected_arg_count (b % 256) } =
          scrub
            { t with
              current_command := b % 256, is_receiving_command := true,
              received_args := 0, expected_args := get_expected_arg_count (b % 256) } :=
        congrArg (fun X => { X with is_receiving_command := true }) h
      by_cases hE : get_expected_arg_count (b % 256) = 0
      · rw [spi_byte_cmd_idle s b hcm hf hE, spi_byte_cmd_idle t b hcmt hfl hE]
        constructor
        · have hAB : scrub (process_command
                { s with
                  current_command := b % 256, is_receiving_command := true,
                  received_args := 0, expected_args := get_expected_arg_count (b % 256) }
                (b % 256) s.command_args 0) =
              scrub (process_command
                { t with
                  current_command := b % 256, is_receiving_command := true,
                  received_args := 0, expected_args := get_expected_arg_count (b % 256) }
                (b % 256) t.command_args 0) := by
            rw [scrub_process_command, scrub_process_command, hstst, hargs]
          exact congrArg (fun X => { X with is_receiving_command := false }) hAB
        · intro habs
          simp at habs
      · rw [spi_byte_cmd_idle_acc s b hcm hf hE, spi_byte_cmd_idle_acc t b hcmt hfl hE]
        constructor
        · exact hstst
        · intro _
          exact ⟨rfl, rfl, rfl⟩
    · have hdm : s.mode = .data := by
        cases hx : s.mode
        · exact absurd hx hcm
        · rfl
      have hdmt : t.mode = .data := hmode.symm.trans hdm
      by_cases hrw : s.ram_write = true
      · have hrwt : t.ram_write = true := hram.symm.trans hrw
        by_cases hpdv : s.pending_data_valid = true
        · have hpdvt : t.pending_data_valid = true := hpv.symm.trans hpdv
          rw [spi_byte_data_pair s b hdm hrw hpdv, spi_byte_data_pair t b hdmt hrwt hpdvt]
          have hbase : scrub { s with pending_data_valid := false } =
              scrub { t with pending_data_valid := false } :=
            congrArg (fun X => { X with pending_data_valid := false }) h
          constructor
          · rw [scrub_process_pixel, scrub_process_pixel, hbase, hpd]
          · intro habs
            have hfl2 := (process_pixel_scratch { s with pending_data_valid := false }
              ((s.pending_data <<< 8) ||| (b % 256))).1
            rw [hfl2] at habs
            dsimp only at habs
            exact absurd habs hrc
        · have hpdf : s.pending_data_valid = false := by
            cases hx : s.pending_data_valid
            · rfl
            · exact absurd hx hpdv
          have hpdft : t.pending_data_valid = false := hpv.symm.trans hpdf
          rw [spi_byte_data_first s b hdm hrw hpdf, spi_byte_data_first t b hdmt hrwt hpdft]
          constructor
          · exact congrArg
              (fun X => { X with pending_data := b % 256, pending_data_valid := true }) h
          · intro habs
            dsimp only at habs
            exact absurd habs hrc
      · have hrwf : s.ram_write = false := by
          cases hx : s.ram_write
          · rfl
          · exact absurd hx hrw
        have hrwft : t.ram_write = false := hram.symm.trans hrwf
        rw [spi_byte_data_off s b hdm hrwf, spi_byte_data_off t b hdmt hrwft]
        exact ⟨h, fun habs => hsync habs⟩

lemma spi_run_bisim (l : List Nat) : ∀ (s t : gc9a01_state_t), scrub s = scrub t →
    (s.is_receiving_command = true →
      s.current_command = t.current_command ∧ s.expected_args = t.expected_args ∧
      s.received_args = t.received_args) →
    scrub (gc9a01_spi_done s l) = scrub (gc9a01_spi_done t l) := by
  induction l with
  | nil => intro s t h _; exact h
  | cons b l ih =>
    intro s t h hsync
    have hb := spi_byte_bisim s t b h hsync
    exact ih _ _ hb.1 hb.2

lemma process_command_unknown (s : gc9a01_state_t) (b : Nat) (a : Nat → Nat) (l : Nat)
    (hb : b ∉ ([0x01, 0x11, 0x29, 0x28, 0x2A, 0x2B, 0x2C, 0x36, 0x3A, 0x20, 0x21] : List Nat)) :
    process_command s b a l = s := by
  simp only [List.mem_cons, List.not_mem_nil, or_false, not_or] at hb
  obtain ⟨n1, n2, n3, n4, n5, n6, n7, n8, n9, n10, n11⟩ := hb
  unfold process_command
  rw [if_neg n1, if_neg n2, if_neg n3, if_neg n4, if_neg n5, if_neg n6, if_neg n7,
      if_neg n8, if_neg n9, if_neg n10, if_neg n11]

lemma get_expected_arg_count_unknown (b : Nat)
    (hb : b ∉ ([0x01, 0x11, 0x29, 0x28, 0x2A, 0x2B, 0x2C, 0x36, 0x3A, 0x20, 0x21] : List Nat)) :
    get_expected_arg_count b = 0 := by
  simp only [List.mem_cons, List.not_mem_nil, or_false, not_or] at hb
  obtain ⟨n1, n2, n3, n4, n5, n6, n7, n8, n9, n10, n11⟩ := hb
  unfold get_expected_arg_count
  rw [if_neg n1, if_neg n2, if_neg n3, if_neg n4, if_neg n7, if_neg n10, if_neg n11,
      if_neg n5, if_neg n6, if_neg n8, if_neg n9]

lemma process_command_scratch (s : gc9a01_state_t) (c : Nat) (args : Nat → Nat)
    (len : Nat) (cc ea ra : Nat) (fl : Bool) :
    process_command { s with current_command := cc, expected_args := ea,
                             received_args := ra, is_receiving_command := fl } c args len =
      { process_command s c args len with current_command := cc, expected_args := ea,
                                          received_args := ra, is_receiving_command := fl } := by
  unfold process_command
  by_cases h1 : c = 0x01
  · subst h1; rfl
  rw [if_neg h1, if_neg h1]
  by_cases h2 : c = 0x11
  · subst h2; rfl
  rw [if_neg h2, if_neg h2]
  by_cases h3 : c = 0x29
  · subst h3; rfl
  rw [if_neg h3, if_neg h3]
  by_cases h4 : c = 0x28
  · subst h4; rfl
  rw [if_neg h4, if_neg h4]
  by_cases h5 : c = 0x2A
  · subst h5
    by_cases hl : len = 4
    · subst hl; rfl
    · rw [if_pos rfl, if_pos rfl, if_neg hl, if_neg hl]
  rw [if_neg h5, if_neg h5]
  by_cases h6 : c = 0x2B
  · subst h6
    by_cases hl : len = 4
    · subst hl; rfl
    · rw [if_pos rfl, if_pos rfl, if_neg hl, if_neg hl]
  rw [if_neg h6, if_neg h6]
  by_cases h7 : c = 0x2C
  · subst h7; rfl
  rw [if_neg h7, if_neg h7]
  by_cases h8 : c = 0x36
  · subst h8; rfl
  rw [if_neg h8, if_neg h8]
  by_cases h9 : c = 0x3A
  · subst h9; rfl
  rw [if_neg h9, if_neg h9]
  by_cases h10 : c = 0x20
  · subst h10; rfl
  rw [if_neg h10, if_neg h10]
  by_cases h11 : c = 0x21
  · subst h11; rfl
  rw [if_neg h11, if_neg h11]

/-! Claims. -/

/-- Claim C1 (code evidence for the divergence): `process_pixel`, run on a
reachable state whose address window extends past the 240-by-240
surface, passes its only bound check (the window check) and writes to
byte offset 230400, which is exactly `width * height * 4` and hence one
full pixel past the end of the framebuffer.  The spec asserts that a
surface-write bounds check in the pixel pipeline drops such samples;
no such check exists in the code. -/
theorem process_pixel_out_of_surface_write :
    (process_pixel c1_state 0).framebuffer 230400 = 0xff000000 ∧
    c1_state.framebuffer 230400 = 0 ∧
    c1_state.width * c1_state.height * 4 = 230400 := by
  refine ⟨by decide, rfl, rfl⟩

/-- Claim C2: delivering any byte sequence to the stream parser in
arbitrarily chunked successive calls of `gc9a01_spi_done` yields the
identical final controller state (surface included) as delivering the
flattened sequence in one call. -/
theorem gc9a01_spi_done_chunking (s : gc9a01_state_t) (chunks : List (List Nat)) :
    chunks.foldl gc9a01_spi_done s = gc9a01_spi_done s chunks.flatten := by
  induction chunks generalizing s with
  | nil => rfl
  | cons c cs ih =>
    show cs.foldl gc9a01_spi_done (gc9a01_spi_done s c) = _
    rw [ih, List.flatten_cons]
    unfold gc9a01_spi_done
    rw [List.foldl_append]

/-- Claim C3: after a reset, via the software-reset opcode 0x01 through
`process_command` or via a falling edge on the reset line through
`gc9a01_pin_change`, the window is the full surface, the cursor is
(0,0), displayOn, inverted and ramWriteActive are false, and every
surface pixel reads opaque black, regardless of the prior state. -/
theorem gc9a01_reset_baseline (s : gc9a01_state_t) (args : Nat → Nat) (len : Nat) :
    ((process_command s 0x01 args len).col_start = 0 ∧
     (process_command s 0x01 args len).col_end = s.width - 1 ∧
     (process_command s 0x01 args len).row_start = 0 ∧
     (process_command s 0x01 args len).row_end = s.height - 1 ∧
     (process_command s 0x01 args len).current_col = 0 ∧
     (process_command s 0x01 args len).current_row = 0 ∧
     (process_command s 0x01 args len).display_on = false ∧
     (process_command s 0x01 args len).inverted = false ∧
     (process_command s 0x01 args len).ram_write = false ∧
     (∀ x y, x < s.width → y < s.height →
       (process_command s 0x01 args len).framebuffer ((y * s.width + x) * 4) = 0xff000000)) ∧
    ((gc9a01_pin_change s .rst 0).col_start = 0 ∧
     (gc9a01_pin_change s .rst 0).col_end = s.width - 1 ∧
     (gc9a01_pin_change s .rst 0).row_start = 0 ∧
     (gc9a01_pin_change s .rst 0).row_end = s.height - 1 ∧
     (gc9a01_pin_change s .rst 0).current_col = 0 ∧
     (gc9a01_pin_change s .rst 0).current_row = 0 ∧
     (gc9a01_pin_change s .rst 0).display_on = false ∧
     (gc9a01_pin_change s .rst 0).inverted = false ∧
     (gc9a01_pin_change s .rst 0).ram_write = false ∧
     (∀ x y, x < s.width → y < s.height →
       (gc9a01_pin_change s .rst 0).framebuffer ((y * s.width + x) * 4) = 0xff000000)) := by
  have hpc : process_command s 0x01 args len =
      { s with framebuffer := fill_black s.width s.height s.framebuffer,
               display_on := false, inverted := false, ram_write := false,
               col_start := 0, col_end := s.width - 1,
               row_start := 0, row_end := s.height - 1,
               current_col := 0, current_row := 0 } := by
    simp [process_command]
  have hrst : gc9a01_pin_change s .rst 0 =
      { s with framebuffer := fill_black s.width s.height s.framebuffer,
               display_on := false, inverted := false, ram_write := false,
               col_start := 0, col_end := s.width - 1,
               row_start := 0, row_end := s.height - 1,
               current_col := 0, current_row := 0 } := by
    simp [gc9a01_pin_change]
  rw [hpc, hrst]
  refine ⟨⟨rfl, rfl, rfl, rfl, rfl, rfl, rfl, rfl, rfl, ?_⟩,
          ⟨rfl, rfl, rfl, rfl, rfl, rfl, rfl, rfl, rfl, ?_⟩⟩
  · intro x y hx hy
    exact fill_black_pixel _ _ _ _ _ hx hy
  · intro x y hx hy
    exact fill_black_pixel _ _ _ _ _ hx hy

theorem gc9a01_reset_baseline_witness :
    (process_command base_state 0x01 (fun _ => 0) 0).col_start = 0 ∧
    (process_command base_state 0x01 (fun _ => 0) 0).framebuffer ((7 * 240 + 5) * 4) = 0xff000000 ∧
    (gc9a01_pin_change base_state .rst 0).framebuffer ((7 * 240 + 5) * 4) = 0xff000000 := by
  have h := gc9a01_reset_baseline base_state (fun _ => 0) 0
  exact ⟨h.1.1,
         h.1.2.2.2.2.2.2.2.2.2 5 7 (by decide) (by decide),
         h.2.2.2.2.2.2.2.2.2.2 5 7 (by decide) (by decide)⟩

/-- Claim C4: with inversion off, a 16-bit sample written while the
cursor is inside the address window and inside the centered circle is
stored at the cursor offset as exactly
0xff000000 OR ((S AND 0x001F) shifted left 19) OR ((S AND 0x07E0)
shifted left 5) OR ((S AND 0xF800) shifted right 8). -/
theorem process_pixel_in_circle_color (s : gc9a01_state_t) (v : Nat)
    (hv : v < 65536) (hinv : s.inverted = false)
    (hc1 : s.col_start ≤ s.current_col) (hc2 : s.current_col ≤ s.col_end)
    (hr1 : s.row_start ≤ s.current_row) (hr2 : s.current_row ≤ s.row_end)
    (hcirc : ((s.current_col : Int) - ((s.width / 2 : Nat) : Int)) *
               ((s.current_col : Int) - ((s.width / 2 : Nat) : Int)) +
             ((s.current_row : Int) - ((s.width / 2 : Nat) : Int)) *
               ((s.current_row : Int) - ((s.width / 2 : Nat) : Int)) ≤
             ((s.width / 2 : Nat) : Int) * ((s.width / 2 : Nat) : Int)) :
    (process_pixel s v).framebuffer ((s.current_row * s.width + s.current_col) * 4) =
      0xff000000 ||| ((v &&& 0x001F) <<< 19) ||| ((v &&& 0x07E0) <<< 5) |||
        ((v &&& 0xF800) >>> 8) := by
  rw [process_pixel_stored s v hc1 hc2 hr1 hr2, if_neg (not_lt.mpr hcirc), hinv]
  rfl

theorem process_pixel_in_circle_color_witness :
    (process_pixel { base_state with current_col := 120, current_row := 120 }
        0xABCD).framebuffer ((120 * 240 + 120) * 4) =
      0xff000000 ||| ((0xABCD &&& 0x001F) <<< 19) ||| ((0xABCD &&& 0x07E0) <<< 5) |||
        ((0xABCD &&& 0xF800) >>> 8) :=
  process_pixel_in_circle_color _ 0xABCD (by decide) rfl (by decide) (by decide)
    (by decide) (by decide) (by decide)

/-- Claim C5: on the 240-by-240 surface, an in-window sample is stored
black exactly when the squared distance of the cursor from (120,120)
exceeds 120 squared, and otherwise as the converted (and, under
inversion, inverted) color; in particular a sample at the corner (0,0)
stores opaque black for every input and every inversion setting, and a
sample at the center (120,120) stores the exact converted color. -/
theorem process_pixel_circular_mask (s : gc9a01_state_t) (v : Nat)
    (hw : s.width = 240) (hh : s.height = 240)
    (hc1 : s.col_start ≤ s.current_col) (hc2 : s.current_col ≤ s.col_end)
    (hr1 : s.row_start ≤ s.current_row) (hr2 : s.current_row ≤ s.row_end)
    (hcol : s.current_col < 240) (hrow : s.current_row < 240) :
    ((process_pixel s v).framebuffer ((s.current_row * s.width + s.current_col) * 4) =
       if ((s.current_col : Int) - 120) * ((s.current_col : Int) - 120) +
          ((s.current_row : Int) - 120) * ((s.current_row : Int) - 120) > 120 * 120
       then 0xff000000
       else if s.inverted then invert_color (rgb565_to_rgba v) else rgb565_to_rgba v) ∧
    (s.current_col = 0 ∧ s.current_row = 0 →
      (process_pixel s v).framebuffer 0 = 0xff000000) ∧
    (s.current_col = 120 ∧ s.current_row = 120 →
      (process_pixel s v).framebuffer ((120 * 240 + 120) * 4) =
        if s.inverted then invert_color (rgb565_to_rgba v) else rgb565_to_rgba v) := by
  have h120 : ((s.width / 2 : Nat) : Int) = 120 := by rw [hw]; rfl
  have hmain := process_pixel_stored s v hc1 hc2 hr1 hr2
  rw [h120] at hmain
  refine ⟨hmain, ?_, ?_⟩
  · rintro ⟨h0c, h0r⟩
    rw [h0c, h0r] at hmain
    norm_num at hmain
    simpa using hmain
  · rintro ⟨h1c, h1r⟩
    rw [h1c, h1r, hw] at hmain
    norm_num at hmain
    simpa using hmain

theorem process_pixel_circular_mask_witness :
    (process_pixel base_state 0xFFFF).framebuffer 0 = 0xff000000 :=
  (process_pixel_circular_mask base_state 0xFFFF rfl rfl (by decide) (by decide)
    (by decide) (by decide) (by decide) (by decide)).2.1 ⟨rfl, rfl⟩

/-- Claim C6 counterexample: with the reachable window
\[65535,65535\] times \[0,0\] and the cursor in the window, one
`process_pixel` wraps the uint16 column to 0, which never exceeds
colEnd 65535, so the column is not reset to colStart and the cursor
leaves the window, contradicting the claimed advance rule and its
never-leaving-the-window consequence. -/
theorem process_pixel_cursor_escapes_window :
    c6_escape_state.col_start ≤ c6_escape_state.current_col ∧
    c6_escape_state.current_col ≤ c6_escape_state.col_end ∧
    c6_escape_state.row_start ≤ c6_escape_state.current_row ∧
    c6_escape_state.current_row ≤ c6_escape_state.row_end ∧
    (process_pixel c6_escape_state 0).current_col = 0 ∧
    (process_pixel c6_escape_state 0).current_col < (process_pixel c6_escape_state 0).col_start := by
  exact ⟨by decide, by decide, by decide, by decide, by decide, by decide⟩

/-- Claim C6 (amended: colEnd and rowEnd must be below 65535 so the
uint16 cursor increments cannot wrap): starting at the window origin,
after any k samples the cursor position is the raster position of
k modulo the window area, it never leaves the window, the window is
unchanged, and the cursor is back at the origin exactly when k is a
multiple of the area; hence area+1 samples pass through the origin
exactly once (at sample area) for windows with at least two cells. -/
theorem process_pixel_window_wrap (s : gc9a01_state_t) (l : List Nat)
    (hc : s.col_start ≤ s.col_end) (hc65 : s.col_end < 65535)
    (hr : s.row_start ≤ s.row_end) (hr65 : s.row_end < 65535)
    (hcol : s.current_col = s.col_start) (hrow : s.current_row = s.row_start) :
    ((l.foldl process_pixel s).col_start = s.col_start ∧
     (l.foldl process_pixel s).col_end = s.col_end ∧
     (l.foldl process_pixel s).row_start = s.row_start ∧
     (l.foldl process_pixel s).row_end = s.row_end) ∧
    ((l.foldl process_pixel s).current_col =
       s.col_start + (l.length % ((s.col_end - s.col_start + 1) * (s.row_end - s.row_start + 1))) %
         (s.col_end - s.col_start + 1) ∧
     (l.foldl process_pixel s).current_row =
       s.row_start + (l.length % ((s.col_end - s.col_start + 1) * (s.row_end - s.row_start + 1))) /
         (s.col_end - s.col_start + 1)) ∧
    (s.col_start ≤ (l.foldl process_pixel s).current_col ∧
     (l.foldl process_pixel s).current_col ≤ s.col_end ∧
     s.row_start ≤ (l.foldl process_pixel s).current_row ∧
     (l.foldl process_pixel s).current_row ≤ s.row_end) ∧
    (((l.foldl process_pixel s).current_col = s.col_start ∧
      (l.foldl process_pixel s).current_row = s.row_start) ↔
      l.length % ((s.col_end - s.col_start + 1) * (s.row_end - s.row_start + 1)) = 0) := by
  have hw0 : 0 < s.col_end - s.col_start + 1 := by omega
  have hh0 : 0 < s.row_end - s.row_start + 1 := by omega
  have hN0 : 0 < (s.col_end - s.col_start + 1) * (s.row_end - s.row_start + 1) :=
    Nat.mul_pos hw0 hh0
  have h := run_cursor s.col_start s.col_end s.row_start s.row_end
    (s.col_end - s.col_start + 1) (s.row_end - s.row_start + 1) rfl rfl hc hc65 hr hr65
    l s 0 rfl rfl rfl rfl hN0 (by rw [hcol, Nat.zero_mod, Nat.add_zero])
    (by rw [hrow, Nat.zero_div, Nat.add_zero])
  obtain ⟨e1, e2, e3, e4, e5, e6⟩ := h
  rw [Nat.zero_add] at e5 e6
  have hLN : l.length % ((s.col_end - s.col_start + 1) * (s.row_end - s.row_start + 1)) <
      (s.col_end - s.col_start + 1) * (s.row_end - s.row_start + 1) := Nat.mod_lt _ hN0
  have hLw : l.length % ((s.col_end - s.col_start + 1) * (s.row_end - s.row_start + 1)) %
      (s.col_end - s.col_start + 1) < s.col_end - s.col_start + 1 := Nat.mod_lt _ hw0
  have hLq : l.length % ((s.col_end - s.col_start + 1) * (s.row_end - s.row_start + 1)) /
      (s.col_end - s.col_start + 1) < s.row_end - s.row_start + 1 := by
    rw [Nat.div_lt_iff_lt_mul hw0]
    calc l.length % ((s.col_end - s.col_start + 1) * (s.row_end - s.row_start + 1)) <
        (s.col_end - s.col_start + 1) * (s.row_end - s.row_start + 1) := hLN
      _ = (s.row_end - s.row_start + 1) * (s.col_end - s.col_start + 1) := Nat.mul_comm _ _
  refine ⟨⟨e1, e2, e3, e4⟩, ⟨e5, e6⟩, ⟨?_, ?_, ?_, ?_⟩, ?_, ?_⟩
  · rw [e5]; exact Nat.le_add_right _ _
  · rw [e5]; omega
  · rw [e6]; exact Nat.le_add_right _ _
  · rw [e6]
    have hq0 : 0 ≤ l.length % ((s.col_end - s.col_start + 1) * (s.row_end - s.row_start + 1)) /
        (s.col_end - s.col_start + 1) := Nat.zero_le _
    omega
  · -- forward direction of the iff
    rintro ⟨hcc, hrr⟩
    rw [e5] at hcc
    rw [e6] at hrr
    have hmz : l.length % ((s.col_end - s.col_start + 1) * (s.row_end - s.row_start + 1)) %
        (s.col_end - s.col_start + 1) = 0 := by omega
    have hdz : l.length % ((s.col_end - s.col_start + 1) * (s.row_end - s.row_start + 1)) /
        (s.col_end - s.col_start + 1) = 0 := by omega
    have hlt : l.length % ((s.col_end - s.col_start + 1) * (s.row_end - s.row_start + 1)) <
        s.col_end - s.col_start + 1 := by
      rw [← Nat.div_eq_zero_iff hw0]
      exact hdz
    calc l.length % ((s.col_end - s.col_start + 1) * (s.row_end - s.row_start + 1)) =
        l.length % ((s.col_end - s.col_start + 1) * (s.row_end - s.row_start + 1)) %
          (s.col_end - s.col_start + 1) := (Nat.mod_eq_of_lt hlt).symm
      _ = 0 := hmz
  · -- backward direction of the iff
    intro hz
    rw [e5, e6, hz]
    constructor
    · rw [Nat.zero_mod, Nat.add_zero]
    · rw [Nat.zero_div, Nat.add_zero]

/-- Claim C6 witness: a 3-by-2 window, 6 samples return the cursor to
the origin and a 7th moves it one column further. -/
theorem process_pixel_window_wrap_witness :
    ((List.replicate 7 0).foldl process_pixel c6_wrap_state).current_col = 3 ∧
    ((List.replicate 7 0).foldl process_pixel c6_wrap_state).current_row = 1 ∧
    ((List.replicate 6 0).foldl process_pixel c6_wrap_state).current_col = 2 ∧
    ((List.replicate 6 0).foldl process_pixel c6_wrap_state).current_row = 1 := by
  have h7 := process_pixel_window_wrap c6_wrap_state (List.replicate 7 0)
    (by decide) (by decide) (by decide) (by decide) rfl rfl
  have h6 := process_pixel_window_wrap c6_wrap_state (List.replicate 6 0)
    (by decide) (by decide) (by decide) (by decide) rfl rfl
  refine ⟨h7.2.1.1.trans (by decide), h7.2.1.2.trans (by decide),
          h6.2.1.1.trans (by decide), h6.2.1.2.trans (by decide)⟩

/-- Claim C7 counterexample: from a state halfway through a CASET
(2 of 4 argument bytes received), a data/command line round trip via
`gc9a01_pin_change` followed by two more bytes completes and applies
the partial command: the address window changes to the assembled
16-bit values 16..32, so the in-flight partial command is not
discarded. -/
theorem dc_transition_completes_partial_command :
    c7_state.is_receiving_command = true ∧
    c7_state.received_args < c7_state.expected_args ∧
    c7_state.col_start = 0 ∧ c7_state.col_end = 239 ∧
    (gc9a01_spi_done (gc9a01_pin_change (gc9a01_pin_change c7_state .dc 1) .dc 0)
      [0, 32]).col_start = 16 ∧
    (gc9a01_spi_done (gc9a01_pin_change (gc9a01_pin_change c7_state .dc 1) .dc 0)
      [0, 32]).col_end = 32 := by
  exact ⟨rfl, by decide, rfl, rfl, by decide, by decide⟩

/-- Claim C7 (amended): a transition on the mode line only sets the
mode field (and restarts transport reception); every other field,
including the in-flight partial command registers and the pending
sample, is preserved, so an interrupted partial command or sample
survives the transition and can later complete. -/
theorem gc9a01_pin_change_dc_only_mode (s : gc9a01_state_t) (v : Nat) :
    { gc9a01_pin_change s .dc v with mode := s.mode } = s ∧
    (gc9a01_pin_change s .dc v).mode = (if v = 0 then .command else .data) := by
  cases s
  unfold gc9a01_pin_change
  by_cases hv : v = 0 <;> simp [hv]

/-- Claim C8 counterexample: the software-reset opcode and the
reset-line falling edge leave `pending_data_valid` set: the pending
sample is not cleared on reset, contrary to the claim. -/
theorem reset_does_not_clear_pending_sample :
    c8_state.pending_data_valid = true ∧
    (process_command c8_state 0x01 (fun _ => 0) 0).pending_data_valid = true ∧
    (gc9a01_pin_change c8_state .rst 0).pending_data_valid = true := by
  exact ⟨rfl, rfl, rfl⟩

/-- Claim C8 (amended): `pending_data_valid` is cleared by select-line
deactivation and by the memory-write opcode 0x2C; software reset and a
reset-line falling edge leave it unchanged but clear `ram_write`, and
a data-mode byte with `ram_write` off leaves the state untouched, so a
stale high byte can only pair after a RAMWR, which clears it first. -/
theorem pending_sample_clearing (s : gc9a01_state_t) (args : Nat → Nat) (len : Nat) :
    (gc9a01_pin_change s .cs 1).pending_data_valid = false ∧
    (process_command s 0x2C args len).pending_data_valid = false ∧
    (process_command s 0x2C args len).ram_write = true ∧
    (process_command s 0x01 args len).pending_data_valid = s.pending_data_valid ∧
    (process_command s 0x01 args len).ram_write = false ∧
    (gc9a01_pin_change s .rst 0).pending_data_valid = s.pending_data_valid ∧
    (gc9a01_pin_change s .rst 0).ram_write = false ∧
    (∀ b, s.mode = .data → s.ram_write = false → gc9a01_spi_byte s b = s) := by
  refine ⟨rfl, rfl, rfl, rfl, rfl, rfl, rfl, ?_⟩
  intro b hm hr
  simp [gc9a01_spi_byte, hm, hr]

/-- Claim C8 witness at a concrete data-mode state. -/
theorem pending_sample_clearing_witness :
    (gc9a01_pin_change c8_idle_state .cs 1).pending_data_valid = false ∧
    gc9a01_spi_byte c8_idle_state 7 = c8_idle_state :=
  ⟨(pending_sample_clearing c8_idle_state (fun _ => 0) 0).1,
   (pending_sample_clearing c8_idle_state (fun _ => 0) 0).2.2.2.2.2.2.2 7 rfl rfl⟩

/-- Claim C9: an opcode byte outside the command table is treated as a
zero-argument command: applying it through `process_command` changes
nothing, the parser is idle right after the byte, and the state after
the byte is observationally identical to the original (equal after
erasing the three transient assembly registers, which are dead until
the next opcode byte overwrites them), now and after any further byte
sequence. -/
theorem unknown_opcode_noop (s : gc9a01_state_t) (b : Nat) (hb256 : b < 256)
    (hb : b ∉ ([0x01, 0x11, 0x29, 0x28, 0x2A, 0x2B, 0x2C, 0x36, 0x3A, 0x20, 0x21] : List Nat))
    (hmode : s.mode = .command) (hidle : s.is_receiving_command = false) :
    (∀ (args : Nat → Nat) (len : Nat), process_command s b args len = s) ∧
    (gc9a01_spi_byte s b).is_receiving_command = false ∧
    scrub (gc9a01_spi_byte s b) = scrub s ∧
    (∀ l : List Nat, scrub (gc9a01_spi_done (gc9a01_spi_byte s b) l) =
      scrub (gc9a01_spi_done s l)) := by
  have hbm : b % 256 = b := Nat.mod_eq_of_lt hb256
  have hE : get_expected_arg_count (b % 256) = 0 := by
    rw [hbm]
    exact get_expected_arg_count_unknown b hb
  have hcomp := spi_byte_cmd_idle s b hmode hidle hE
  have hA : process_command
      { s with
        current_command := b % 256, is_receiving_command := true,
        received_args := 0, expected_args := get_expected_arg_count (b % 256) }
      (b % 256) s.command_args 0 =
      { s with
        current_command := b % 256, is_receiving_command := true,
        received_args := 0, expected_args := get_expected_arg_count (b % 256) } := by
    rw [hbm]
    exact process_command_unknown _ b _ _ hb
  have hflag : (gc9a01_spi_byte s b).is_receiving_command = false := by
    rw [hcomp]
  have hkey : scrub (gc9a01_spi_byte s b) =
      { scrub s with is_receiving_command := false } := by
    rw [hcomp, hA]
    rfl
  have hscr : scrub (gc9a01_spi_byte s b) = scrub s := by
    rw [hkey, ← hidle]
    rfl
  refine ⟨fun args len => process_command_unknown s b args len hb, hflag, hscr, ?_⟩
  intro l
  exact spi_run_bisim l _ s hscr (fun habs => absurd (hflag ▸ habs) (by decide))

/-- Claim C9 witness: unknown opcode 0x55 from the idle base state. -/
theorem unknown_opcode_noop_witness :
    process_command base_state 0x55 (fun _ => 0) 0 = base_state ∧
    (gc9a01_spi_byte base_state 0x55).is_receiving_command = false ∧
    scrub (gc9a01_spi_byte base_state 0x55) = scrub base_state := by
  have h := unknown_opcode_noop base_state 0x55 (by decide) (by decide) rfl rfl
  exact ⟨h.1 (fun _ => 0) 0, h.2.1, h.2.2.1⟩

/-- Claim C10: deactivating then reactivating the select line abandons
a partially assembled 4-argument command: the toggled state has
`ram_write`, `is_receiving_command` and `pending_data_valid` cleared
and the address window preserved, and a fresh 0-argument opcode sent
afterwards produces exactly the state obtained by applying that single
command (plus the reception bookkeeping), so the abandoned partial
command is never applied. -/
theorem cs_toggle_abandons_partial_command (s : gc9a01_state_t) (b : Nat)
    (hrecv : s.is_receiving_command = true) (hexp : s.expected_args = 4)
    (hrec : s.received_args < s.expected_args) (hmode : s.mode = .command)
    (hb : b < 256) (hb0 : get_expected_arg_count b = 0) :
    ((gc9a01_pin_change (gc9a01_pin_change s .cs 1) .cs 0).is_receiving_command = false ∧
     (gc9a01_pin_change (gc9a01_pin_change s .cs 1) .cs 0).ram_write = false ∧
     (gc9a01_pin_change (gc9a01_pin_change s .cs 1) .cs 0).pending_data_valid = false ∧
     (gc9a01_pin_change (gc9a01_pin_change s .cs 1) .cs 0).col_start = s.col_start ∧
     (gc9a01_pin_change (gc9a01_pin_change s .cs 1) .cs 0).col_end = s.col_end ∧
     (gc9a01_pin_change (gc9a01_pin_change s .cs 1) .cs 0).row_start = s.row_start ∧
     (gc9a01_pin_change (gc9a01_pin_change s .cs 1) .cs 0).row_end = s.row_end) ∧
    gc9a01_spi_done (gc9a01_pin_change (gc9a01_pin_change s .cs 1) .cs 0) [b] =
      { process_command (gc9a01_pin_change (gc9a01_pin_change s .cs 1) .cs 0) b
          (gc9a01_pin_change (gc9a01_pin_change s .cs 1) .cs 0).command_args 0 with
        current_command := b, expected_args := 0, received_args := 0,
        is_receiving_command := false } := by
  refine ⟨⟨rfl, rfl, rfl, rfl, rfl, rfl, rfl⟩, ?_⟩
  have htm : (gc9a01_pin_change (gc9a01_pin_change s .cs 1) .cs 0).mode = .command := hmode
  have hti : (gc9a01_pin_change (gc9a01_pin_change s .cs 1) .cs 0).is_receiving_command
      = false := rfl
  show gc9a01_spi_byte (gc9a01_pin_change (gc9a01_pin_change s .cs 1) .cs 0) b = _
  unfold gc9a01_spi_byte
  rw [Nat.mod_eq_of_lt hb]
  dsimp only
  rw [if_pos htm, if_pos hti, hb0, if_pos rfl]
  rw [process_command_scratch]

/-- Claim C10 witness: abandoning a partial CASET, then sending INVON. -/
theorem cs_toggle_abandons_partial_command_witness :
    (gc9a01_pin_change (gc9a01_pin_change c10_state .cs 1) .cs 0).ram_write = false ∧
    gc9a01_spi_done (gc9a01_pin_change (gc9a01_pin_change c10_state .cs 1) .cs 0) [0x21] =
      { process_command (gc9a01_pin_change (gc9a01_pin_change c10_state .cs 1) .cs 0) 0x21
          (gc9a01_pin_change (gc9a01_pin_change c10_state .cs 1) .cs 0).command_args 0 with
        current_command := 0x21, expected_args := 0, received_args := 0,
        is_receiving_command := false } := by
  have h := cs_toggle_abandons_partial_command c10_state 0x21 rfl rfl (by decide) rfl
    (by decide) (by decide)
  exact ⟨h.1.2.1, h.2⟩

